import Mathlib

/-!
# Verification of the kas core (config resolution, repo sync, process runner)

Shallow embedding of `kas/libkas.py` and `kas/config.py`. External effects
(subprocess results, filesystem queries) are passed in explicitly as "world"
records; each embedded function returns the trace of the commands it issued,
the log messages it emitted, and its termination behaviour (normal return or
whole-process exit via `sys.exit`).
-/

namespace Kas

/-- A Python value as it may appear for a layer entry in a YAML/JSON
configuration document: string, integer or boolean. -/
inductive PyVal where
  | str (s : String)
  | int (n : Int)
  | bool (b : Bool)
  deriving Repr, DecidableEq

/-- Python `str(v)`: identity on strings, decimal for ints, `True`/`False`
for booleans. -/
def pyStr : PyVal → String
  | .str s => s
  | .int n => toString n
  | .bool true => "True"
  | .bool false => "False"

/-- Python `s.lower()` restricted to ASCII (the only case the config values
exercise). -/
def strLower (s : String) : String :=
  ⟨s.data.map Char.toLower⟩

/-- Python truthiness of an optional string (`None` and `''` are falsy). -/
def pyTruthy (o : Option String) : Bool :=
  (o.getD "") ≠ ""

/-- Whether a path string starts with a slash (is absolute). -/
def startsWithSlash (s : String) : Bool :=
  match s.data with
  | [] => false
  | c :: _ => c = '/'

/-- Whether a path string ends with a slash. -/
def endsWithSlash (s : String) : Bool :=
  match s.data.getLast? with
  | some c => c = '/'
  | none => false

/-- Python `os.path.join(a, b)`: `b` if it is absolute, else `a + b` when `a`
is empty or ends in a slash, else `a + '/' + b`. -/
def pyJoin (a b : String) : String :=
  if startsWithSlash b then b
  else if a = "" then b
  else if endsWithSlash a then a ++ b
  else a ++ "/" ++ b

/-! ## Process Runner: `run_cmd` (libkas.py 115-147)

A command is spawned either as an argv vector or as a shell string; the
subprocess's behaviour (exit code and the decoded lines captured from its two
streams) is an input.  `run_cmd` either returns `(retc, joined stdout)` or
terminates the whole process via `sys.exit(retc)` after logging an error
message built from the working directory, the command string and every
captured stderr line. -/

/-- The command argument of `run_cmd`: a list of arguments (`shell=False`) or
a single shell string (`shell=True`). -/
inductive CmdSpec where
  | argv (args : List String)
  | shellCmd (s : String)
  deriving Repr, DecidableEq

/-- `cmdstr` as computed in `run_cmd`: the shell string itself, or
`' '.join(cmd)` for an argv command. -/
def cmdstrOf : CmdSpec → String
  | .argv args => String.intercalate " " args
  | .shellCmd s => s

/-- Observed behaviour of the spawned subprocess: its exit code and the
decoded lines delivered to the stdout/stderr callbacks. -/
structure CmdResult where
  retc : Nat
  stdoutLines : List String
  stderrLines : List String
  deriving Repr, DecidableEq

/-- Result of a `run_cmd` call: either the whole process terminated through
`sys.exit code` after logging `errorLog`, or the pair
`(retc, captured stdout)` was returned to the caller. -/
inductive RunOutcome where
  | exited (code : Nat) (errorLog : String)
  | returned (retc : Nat) (stdout : String)
  deriving Repr, DecidableEq

/-- The error message `run_cmd` logs before exiting: the
`Command "<cwd>$ <cmd>" failed` line followed by every captured stderr
line. -/
def failMsg (cmd : CmdSpec) (cwd : String) (stderrLines : List String) : String :=
  "Command \"" ++ cwd ++ "$ " ++ cmdstrOf cmd ++ "\" failed\n" ++ String.join stderrLines

/-- `run_cmd` (libkas.py 115-147), with the subprocess's behaviour `res`
supplied as input.  `if retc and fail:` log the failure message and
`sys.exit(retc)`; otherwise return `(retc, ''.join(logo.stdout))`. -/
def runCmd (cmd : CmdSpec) (cwd : String) (res : CmdResult) (fail : Bool) : RunOutcome :=
  if res.retc ≠ 0 ∧ fail then
    .exited res.retc (failMsg cmd cwd res.stderrLines)
  else
    .returned res.retc (String.join res.stdoutLines)

/-! ## Repository descriptors

`kas/repos.py` is not among the sources under verification; the `Repo`
record below is modelled from the constructor calls in `config.py`
(`Repo(url=..., path=..., refspec=..., layers=...)`,
`rep.disable_git_operations()`) and from the spec's RepositoryDescriptor
data model (name, qualified name). -/

/-- A repository descriptor. `git_operation_disabled` is the flag set once by
`disable_git_operations()`. -/
structure Repo where
  url : String
  path : String
  refspec : Option String
  layers : List String
  name : String
  git_operation_disabled : Bool
  deriving Repr, DecidableEq

/-- Modelled from the spec: `Repo.qualified_name` lives in `kas/repos.py`,
which is missing from the sources; the spec describes it as "a
filesystem-safe identifier derived from a repository URL".  We model it as
the URL with every non-alphanumeric character replaced by a dot. -/
def Repo.qualifiedName (r : Repo) : String :=
  ⟨r.url.data.map (fun c => if c.isAlphanum then c else '.')⟩

/-- The slice of a kas `Config` object that the synchronizer reads: the work
directory, the process-environment mapping `config.environ`, and the
`KAS_REPO_REF_DIR` environment variable behind `get_repo_ref_dir()`. -/
structure KasConfig where
  kas_work_dir : String
  environ : List (String × String)
  repo_ref_dir : Option String
  deriving Repr, DecidableEq

/-- One subprocess invocation as issued through `run_cmd`: the argv vector,
the working directory, and the environment mapping handed to the subprocess
(`env or {}`, so an omitted `env=` argument records as `[]`). -/
structure Cmd where
  argv : List String
  cwd : String
  env : List (String × String)
  deriving Repr, DecidableEq

/-- Termination behaviour of an embedded function: normal completion, or
whole-process termination through `sys.exit code` inside `run_cmd`. -/
inductive Term where
  | completed
  | exited (code : Nat)
  deriving Repr, DecidableEq

/-- Observable result of a synchronizer call: termination behaviour, the
commands issued in order, warning and info log lines, and whether
`os.makedirs` was invoked. -/
structure SyncResult where
  term : Term
  cmds : List Cmd
  warnings : List String
  infos : List String
  madeDirs : Bool
  deriving Repr, DecidableEq

/-- Python string formatting of an optional refspec:
`.format(refspec=None)` yields `"None"`. -/
def pyFormatOpt : Option String → String
  | some r => r
  | none => "None"

/-- Python whitespace as recognised by `str.strip()`. -/
def isPySpace (c : Char) : Bool :=
  c = ' ' || c = '\t' || c = '\n' || c = '\r' || c = '\x0b' || c = '\x0c'

/-- Python `s.strip()`: remove leading and trailing whitespace. -/
def pyStrip (s : String) : String :=
  ⟨((s.data.dropWhile isPySpace).reverse.dropWhile isPySpace).reverse⟩

/-- `output.strip() == repo.refspec` in Python: comparing a string to `None`
is `False`; otherwise string equality after stripping whitespace. -/
def stripEq (s : String) : Option String → Bool
  | some r => pyStrip s = r
  | none => false

/-! ## `repo_fetch` (libkas.py 161-200) -/

/-- External world for one `repo_fetch` call: the two filesystem queries and
the behaviour of each subprocess the call may spawn. -/
structure FetchWorld where
  pathExists : Bool
  gitsrcdirExists : Bool
  cloneRes : CmdResult
  catRes : CmdResult
  fetchRes : CmdResult
  deriving Repr, DecidableEq

/-- `repo_fetch(config, repo)` (libkas.py 161-200).  Returns immediately for
a git-operations-disabled repo; clones (with `--reference` when the
reference directory is configured and exists) when the local path is absent;
otherwise probes `git cat-file -t refspec` and, if the object is missing,
runs `git fetch --all` non-fatally, logging a warning on failure. -/
def repo_fetch (config : KasConfig) (repo : Repo) (w : FetchWorld) : SyncResult :=
  if repo.git_operation_disabled then
    ⟨.completed, [], [], [], false⟩
  else if ¬ w.pathExists then
    let gitsrcdir := pyJoin (config.repo_ref_dir.getD "") repo.qualifiedName
    if pyTruthy config.repo_ref_dir ∧ w.gitsrcdirExists then
      let c : Cmd := ⟨["/usr/bin/git", "clone", "--reference", gitsrcdir,
                       repo.url, repo.path], config.kas_work_dir, config.environ⟩
      match runCmd (.argv c.argv) c.cwd w.cloneRes true with
      | .exited code _ => ⟨.exited code, [c], [], [], true⟩
      | .returned _ _ => ⟨.completed, [c], [], [], true⟩
    else
      let c : Cmd := ⟨["/usr/bin/git", "clone", "-q", repo.url, repo.path],
                      config.kas_work_dir, config.environ⟩
      match runCmd (.argv c.argv) c.cwd w.cloneRes true with
      | .exited code _ => ⟨.exited code, [c], [], [], true⟩
      | .returned _ _ => ⟨.completed, [c], [], [], true⟩
  else
    match repo.refspec with
    | none =>
      -- `run_cmd` computes `' '.join(cmd)` with `None` as element 3, which
      -- raises TypeError; the top-level handler in kas.py exits with 1.
      ⟨.exited 1, [], [], [], false⟩
    | some refspec =>
    let catCmd : Cmd := ⟨["/usr/bin/git", "cat-file", "-t", refspec],
                         repo.path, config.environ⟩
    match runCmd (.argv catCmd.argv) catCmd.cwd w.catRes false with
    | .exited code _ => ⟨.exited code, [catCmd], [], [], false⟩
    | .returned retc _ =>
      if retc = 0 then
        ⟨.completed, [catCmd], [], [], false⟩
      else
        let fCmd : Cmd := ⟨["/usr/bin/git", "fetch", "--all"],
                           repo.path, config.environ⟩
        match runCmd (.argv fCmd.argv) fCmd.cwd w.fetchRes false with
        | .exited code _ => ⟨.exited code, [catCmd, fCmd], [], [], false⟩
        | .returned retc2 output =>
          if retc2 ≠ 0 then
            ⟨.completed, [catCmd, fCmd],
             ["Could not update repository " ++ repo.name ++ ": " ++ output],
             [], false⟩
          else
            ⟨.completed, [catCmd, fCmd], [], [], false⟩

/-! ## `repo_checkout` (libkas.py 203-230) -/

/-- External world for one `repo_checkout` call. -/
structure CheckoutWorld where
  diffRes : CmdResult
  revRes : CmdResult
  checkoutRes : CmdResult
  deriving Repr, DecidableEq

/-- `repo_checkout(config, repo)` (libkas.py 203-230).  No-op when git
operations are disabled; warning-and-return when `git diff --shortstat`
reports changes; no-op when stripped `HEAD` equals the refspec; otherwise
`git checkout -q <refspec>` with `fail=True` and, notably, no `env=`
argument. -/
def repo_checkout (config : KasConfig) (repo : Repo) (w : CheckoutWorld) : SyncResult :=
  if repo.git_operation_disabled then
    ⟨.completed, [], [], [], false⟩
  else
    let diffCmd : Cmd := ⟨["/usr/bin/git", "diff", "--shortstat"],
                          repo.path, config.environ⟩
    match runCmd (.argv diffCmd.argv) diffCmd.cwd w.diffRes false with
    | .exited code _ => ⟨.exited code, [diffCmd], [], [], false⟩
    | .returned _ output =>
      if output.length ≠ 0 then
        ⟨.completed, [diffCmd],
         ["Repo " ++ repo.name ++ " is dirty. no checkout"], [], false⟩
      else
        let revCmd : Cmd := ⟨["/usr/bin/git", "rev-parse", "--verify", "HEAD"],
                             repo.path, config.environ⟩
        match runCmd (.argv revCmd.argv) revCmd.cwd w.revRes true with
        | .exited code _ => ⟨.exited code, [diffCmd, revCmd], [], [], false⟩
        | .returned _ headOut =>
          if stripEq headOut repo.refspec then
            ⟨.completed, [diffCmd, revCmd], [],
             ["Repo " ++ repo.name ++ " has already checkout out correct "
              ++ "refspec. nothing to do"], false⟩
          else
            let coCmd : Cmd := ⟨["/usr/bin/git", "checkout", "-q",
                                 pyFormatOpt repo.refspec], repo.path, []⟩
            match runCmd (.argv coCmd.argv) coCmd.cwd w.checkoutRes true with
            | .exited code _ => ⟨.exited code, [diffCmd, revCmd, coCmd], [], [], false⟩
            | .returned _ _ => ⟨.completed, [diffCmd, revCmd, coCmd], [], [], false⟩

/-! ## `_read_stream` (libkas.py 64-80)

Each line read from the stream is a byte sequence.  The code attempts
`line.decode('utf-8')`; on `UnicodeDecodeError` it logs a warning, but the
name `line` still holds the raw bytes (the assignment never happened), so
the following `if line:` finds a non-empty bytes object and passes it to the
callback. -/

/-- UTF-8 continuation byte: `0x80..0xBF`. -/
def isCont (b : Nat) : Bool := 0x80 ≤ b && b ≤ 0xBF

/-- Whether a byte sequence is valid UTF-8 (as accepted by Python's strict
`bytes.decode('utf-8')`): rejects overlong encodings, surrogates and
codepoints above U+10FFFF. -/
def validUtf8 : List Nat → Bool
  | [] => true
  | b :: bs =>
    if b ≤ 0x7F then validUtf8 bs
    else if b < 0xC2 then false
    else if b ≤ 0xDF then
      match bs with
      | c :: bs2 => isCont c && validUtf8 bs2
      | [] => false
    else if b ≤ 0xEF then
      match bs with
      | c1 :: c2 :: bs2 =>
        (if b = 0xE0 then 0xA0 ≤ c1 && c1 ≤ 0xBF
         else if b = 0xED then 0x80 ≤ c1 && c1 ≤ 0x9F
         else isCont c1) && isCont c2 && validUtf8 bs2
      | _ => false
    else if b ≤ 0xF4 then
      match bs with
      | c1 :: c2 :: c3 :: bs2 =>
        (if b = 0xF0 then 0x90 ≤ c1 && c1 ≤ 0xBF
         else if b = 0xF4 then 0x80 ≤ c1 && c1 ≤ 0x8F
         else isCont c1) && isCont c2 && isCont c3 && validUtf8 bs2
      | _ => false
    else false

/-- A value passed to the stream callback: a successfully decoded text line
(carrying its bytes), or — when decoding failed — the raw bytes object
itself. -/
inductive StreamItem where
  | decoded (bytes : List Nat)
  | raw (bytes : List Nat)
  deriving Repr, DecidableEq

/-- `_read_stream` (libkas.py 64-80) over the list of byte lines produced by
`readline` (the terminating empty line marks end-of-stream).  Returns the
items passed to the callback, in order, together with the number of
decode-failure warnings logged. -/
def readStream : List (List Nat) → List StreamItem × Nat
  | [] => ([], 0)
  | l :: ls =>
    if validUtf8 l then
      if l = [] then ([], 0)
      else
        let (items, warns) := readStream ls
        (.decoded l :: items, warns)
    else
      let (items, warns) := readStream ls
      (.raw l :: items, warns + 1)

/-! ## Configuration accessors (config.py)

The `_config` dictionary of the base/static configuration is modelled as a
record of optional keys; a `ConfigPython` document is modelled by the results
of its optional entry points (a defined entry point is `some` of the value
the call returns). -/

/-- One entry of the `repos` mapping of a declarative document.  A repo key
mapped to `None` (empty YAML body) is modelled as `none` at the use site. -/
structure RepoEntry where
  url : Option String
  name : Option String
  refspec : Option String
  path : Option String
  layers : List (String × PyVal)
  deriving Repr, DecidableEq

/-- The scalar part of a merged declarative `_config` mapping, plus the
`repos` mapping (association list standing for the unique-keyed dict,
declaration order preserved). -/
structure StaticDoc where
  target : Option String
  machine : Option String
  distro : Option String
  proxy_config : Option (List (String × String))
  repos : List (String × Option RepoEntry)
  deriving Repr, DecidableEq

namespace ConfigBase

/-- `Config.get_bitbake_target` (config.py 144-148):
`self._config.get('target', 'core-image-minimal')`. -/
def get_bitbake_target (doc : StaticDoc) : String :=
  doc.target.getD "core-image-minimal"

/-- `Config.get_machine` (config.py 162-166): default `'qemu'`. -/
def get_machine (doc : StaticDoc) : String :=
  doc.machine.getD "qemu"

/-- `Config.get_distro` (config.py 168-172): default `'poky'`. -/
def get_distro (doc : StaticDoc) : String :=
  doc.distro.getD "poky"

/-- `Config.get_proxy_config` (config.py 102-110): the `proxy_config` key,
defaulting to the three proxy variables from the host environment (empty
string when unset). -/
def get_proxy_config (doc : StaticDoc)
    (env_http env_https env_no : Option String) : List (String × String) :=
  doc.proxy_config.getD
    [("http_proxy", env_http.getD ""),
     ("https_proxy", env_https.getD ""),
     ("no_proxy", env_no.getD "")]

end ConfigBase

/-- The optional entry points a scriptable (`.py`) configuration document may
define, each modelled by the result of calling it when defined. -/
structure PyEntryPoints where
  bitbake_target : Option String
  machine : Option String
  distro : Option String
  proxy_config : Option (List (String × String))
  bblayers_conf_header : Option String
  local_conf_header : Option String
  gitlabci_config : Option String
  deriving Repr, DecidableEq

/-- A `ConfigPython`: the evaluated document plus the `target` given on the
command line (stored by `create_config`). -/
structure ConfigPython where
  entries : PyEntryPoints
  target : String
  deriving Repr, DecidableEq

namespace ConfigPython

/-- `ConfigPython.get_bitbake_target` (config.py 253-260): the
`get_bitbake_target` entry point if defined, else **`self.target`** (the
command-line target). -/
def get_bitbake_target (c : ConfigPython) : String :=
  c.entries.bitbake_target.getD c.target

/-- `ConfigPython.get_machine` (config.py 280-287): entry point if defined,
else `'qemu'`. -/
def get_machine (c : ConfigPython) : String :=
  c.entries.machine.getD "qemu"

/-- `ConfigPython.get_distro` (config.py 289-296): entry point if defined,
else `'poky'`. -/
def get_distro (c : ConfigPython) : String :=
  c.entries.distro.getD "poky"

/-- `ConfigPython.get_bblayers_conf_header` (config.py 262-269): entry point
if defined, else `''`. -/
def get_bblayers_conf_header (c : ConfigPython) : String :=
  c.entries.bblayers_conf_header.getD ""

/-- `ConfigPython.get_local_conf_header` (config.py 271-278): entry point if
defined, else `''`. -/
def get_local_conf_header (c : ConfigPython) : String :=
  c.entries.local_conf_header.getD ""

/-- `ConfigPython.get_gitlabci_config` (config.py 298-305): entry point if
defined, else `''`. -/
def get_gitlabci_config (c : ConfigPython) : String :=
  c.entries.gitlabci_config.getD ""

/-- `ConfigPython.get_proxy_config` (config.py 241-242):
`self._config['get_proxy_config']()` — a plain dict index with **no**
fallback, so an undefined entry point raises `KeyError`. -/
def get_proxy_config (c : ConfigPython) : Except String (List (String × String)) :=
  match c.entries.proxy_config with
  | some p => .ok p
  | none => .error "KeyError: get_proxy_config"

end ConfigPython

/-! ## `ConfigStatic.get_repo_dict` (config.py 344-390) -/

/-- The values whose lowercased string form excludes a layer entry
(config.py 358-359). -/
def excludedLayerValues : List String :=
  ["disabled", "excluded", "n", "no", "0", "false"]

/-- The layer filter of `get_repo_dict` (config.py 356-360): keep the keys of
the layers dict whose value, as a lowercased string, is not one of the
excluded markers; declaration order is preserved.  (Filtering the pairs and
projecting the keys coincides with the source's key-iteration-plus-lookup
because a Python dict has unique keys.) -/
def filterLayers (layersDict : List (String × PyVal)) : List String :=
  (layersDict.filter
    (fun p => !(excludedLayerValues.contains (strLower (pyStr p.2))))).map Prod.fst

/-- Builds the `Repo` for one entry of the `repos` mapping (the body of the
loop in config.py 352-389).  `gitToplevel` is the stripped output of
`git rev-parse --show-toplevel` run in the directory of the configuration
file — the external input consulted only in the in-tree (no url, no path)
case. -/
def mkRepo (cfg : KasConfig) (gitToplevel : String) (key : String)
    (e : Option RepoEntry) : Repo :=
  let entry := e.getD ⟨none, none, none, none, []⟩
  let layers := filterLayers entry.layers
  let name := entry.name.getD key
  match entry.url with
  | none =>
    let path :=
      match entry.path with
      | none => gitToplevel
      | some p => p
    { url := path, path := path, refspec := none, layers := layers,
      name := name, git_operation_disabled := true }
  | some url =>
    -- `path = path or os.path.join(self.kas_work_dir, name)`: Python `or`
    -- tests truthiness, so both `None` and `''` fall back to the join.
    let path :=
      if pyTruthy entry.path then entry.path.getD ""
      else pyJoin cfg.kas_work_dir name
    { url := url, path := path, refspec := entry.refspec, layers := layers,
      name := name, git_operation_disabled := false }

/-- `ConfigStatic.get_repo_dict` (config.py 344-390): one `Repo` per entry of
the `repos` mapping, keyed and ordered as declared. -/
def get_repo_dict (cfg : KasConfig) (doc : StaticDoc) (gitToplevel : String) :
    List (String × Repo) :=
  doc.repos.map (fun p => (p.1, mkRepo cfg gitToplevel p.1 p.2))

/-! ## The declarative resolution loop (`ConfigStatic.__init__`, config.py 313-336)

`self.handler.get_config(repos=repos)` and the fetch-and-checkout block are
the loop's two external calls; they are passed in as functions.  `sync cfg
missing` abstracts lines 332-336 (`get_repo_dict`, then `repo_fetch` and
`repo_checkout` per missing name, then the path mapping); it returns `none`
when that block terminates the process (a `run_cmd` failure or a `KeyError`
for a missing name).  The loop itself can diverge, so it is driven by fuel;
`none` means the fuel ran out with the loop still running. -/

/-- Outcome of declarative resolution.  `includeError` is the
`IncludeException` raised by the non-progress detector — a distinct error
kind from `ioError` (the `IOError` used for unreadable configuration files)
and from `fatalOther` (process termination during fetch/checkout).  Each
result records the number of resolution rounds, i.e. of `get_config`
calls. -/
inductive ResolveResult (Cfg : Type) where
  | converged (cfg : Cfg) (rounds : Nat)
  | includeError (rounds : Nat)
  | ioError (rounds : Nat)
  | fatalOther (rounds : Nat)
  deriving Repr, DecidableEq

/-- The `while not complete` loop of `ConfigStatic.__init__` (config.py
320-336), with `missing_repos_old`, `repos` and the round count as explicit
state. -/
def resolveLoop {Cfg : Type}
    (get_config : List (String × String) → Cfg × List String)
    (sync : Cfg → List String → Option (List (String × String))) :
    Nat → List String → List (String × String) → Nat → Option (ResolveResult Cfg)
  | 0, _, _, _ => none
  | fuel + 1, missing_repos_old, repos, rounds =>
    let res := get_config repos
    if missing_repos_old ≠ [] ∧ res.2 = missing_repos_old then
      some (.includeError (rounds + 1))
    else if res.2 = [] then
      some (.converged res.1 (rounds + 1))
    else
      match sync res.1 res.2 with
      | none => some (.fatalOther (rounds + 1))
      | some repos2 => resolveLoop get_config sync fuel res.2 repos2 (rounds + 1)

/-- Entry to the loop with the initial state of config.py 321-322:
`repos = \x7b\x7d`, `missing_repos_old = []`. -/
def configStaticResolve {Cfg : Type}
    (get_config : List (String × String) → Cfg × List String)
    (sync : Cfg → List String → Option (List (String × String)))
    (fuel : Nat) : Option (ResolveResult Cfg) :=
  resolveLoop get_config sync fuel [] [] 0

/-! ## Theorems -/

/-- Claim C2: a Process Runner invocation whose subprocess exits non-zero
with `fail=True` logs the command, its working directory and the entire
captured standard-error, and terminates the whole process with exactly that
exit code; with `fail=False` it returns the pair (exit code, captured
standard-output) without terminating. -/
theorem C2_runCmd_fail_fast (cmd : CmdSpec) (cwd : String) (res : CmdResult) :
    (res.retc ≠ 0 → runCmd cmd cwd res true =
      .exited res.retc
        ("Command \"" ++ cwd ++ "$ " ++ cmdstrOf cmd ++ "\" failed\n"
          ++ String.join res.stderrLines)) ∧
    runCmd cmd cwd res false =
      .returned res.retc (String.join res.stdoutLines) := by
  constructor
  · intro h
    simp [runCmd, failMsg, h]
  · simp [runCmd]

/-- Witness for C2 at a command exiting 3 with one stderr line. -/
theorem C2_witness :
    runCmd (.argv ["/bin/false"]) "/tmp" ⟨3, ["out\n"], ["boom\n"]⟩ true =
      .exited 3
        ("Command \"" ++ "/tmp" ++ "$ " ++ cmdstrOf (.argv ["/bin/false"])
          ++ "\" failed\n" ++ String.join ["boom\n"]) ∧
    runCmd (.argv ["/bin/false"]) "/tmp" ⟨3, ["out\n"], ["boom\n"]⟩ false =
      .returned 3 (String.join ["out\n"]) :=
  ⟨(C2_runCmd_fail_fast (.argv ["/bin/false"]) "/tmp" ⟨3, ["out\n"], ["boom\n"]⟩).1
      (by decide),
   (C2_runCmd_fail_fast (.argv ["/bin/false"]) "/tmp" ⟨3, ["out\n"], ["boom\n"]⟩).2⟩

/-- Claim C3 (evaluation at the failing input): for the stream consisting of
the single undecodable line `0xFF`, `_read_stream` logs one warning but the
raw, undecoded bytes object **is** passed to the callback (and hence appended
to the capture buffer) — the line is not dropped as the claim states. -/
theorem C3_raw_line_reaches_callback :
    readStream [[0xFF]] = ([.raw [0xFF]], 1) ∧ ([] : List StreamItem) ≠ [.raw [0xFF]] := by
  constructor
  · rfl
  · simp

/-- Claim C7: for a repository flagged git-operations-disabled, both
`repo_fetch` and `repo_checkout` return immediately: no command is issued,
nothing is logged, no directory is created. -/
theorem C7_disabled_short_circuit (cfg : KasConfig) (r : Repo)
    (wf : FetchWorld) (wc : CheckoutWorld) :
    repo_fetch cfg { r with git_operation_disabled := true } wf =
      ⟨.completed, [], [], [], false⟩ ∧
    repo_checkout cfg { r with git_operation_disabled := true } wc =
      ⟨.completed, [], [], [], false⟩ := by
  constructor
  · simp [repo_fetch]
  · simp [repo_checkout]

/-- In an association list with pairwise-distinct keys, a key determines its
value. -/
theorem snd_eq_of_keys_nodup {α β : Type} (d : List (α × β))
    (hnd : (d.map Prod.fst).Nodup) {a : α} {b b' : β}
    (h1 : (a, b) ∈ d) (h2 : (a, b') ∈ d) : b = b' := by
  induction d with
  | nil => simp at h1
  | cons p t ih =>
    simp only [List.map_cons, List.nodup_cons] at hnd
    rcases List.mem_cons.mp h1 with h1' | h1' <;>
      rcases List.mem_cons.mp h2 with h2' | h2'
    · exact congrArg Prod.snd (h1'.trans h2'.symm)
    · have hmapped : a ∈ t.map Prod.fst := List.mem_map_of_mem Prod.fst h2'
      rw [← h1'] at hnd
      exact absurd hmapped hnd.1
    · have hmapped : a ∈ t.map Prod.fst := List.mem_map_of_mem Prod.fst h1'
      rw [← h2'] at hnd
      exact absurd hmapped hnd.1
    · exact ih hnd.2 h1' h2'

/-- Claim C6: a layer entry is excluded exactly when its value, converted to
a string and lowercased, is one of `disabled`, `excluded`, `n`, `no`, `0`,
`false`; all other entries are kept in declaration order, and the example
`a=enabled, b=disabled, c="0", d=yes` filters to `["a", "d"]`. -/
theorem C6_layer_filtering :
    filterLayers [("a", .str "enabled"), ("b", .str "disabled"),
                  ("c", .str "0"), ("d", .str "yes")] = ["a", "d"] ∧
    (∀ d : List (String × PyVal), (filterLayers d).Sublist (d.map Prod.fst)) ∧
    (∀ d : List (String × PyVal), (d.map Prod.fst).Nodup →
      ∀ x v, (x, v) ∈ d →
        (x ∈ filterLayers d ↔ strLower (pyStr v) ∉ excludedLayerValues)) := by
  refine ⟨by decide, ?_, ?_⟩
  · intro d
    exact (List.filter_sublist d).map Prod.fst
  · intro d hnd x v hmem
    constructor
    · intro hx
      rcases List.mem_map.mp hx with ⟨⟨x', v'⟩, hmem', hfst⟩
      rcases List.mem_filter.mp hmem' with ⟨hin, hkeep⟩
      cases hfst
      have hv : v' = v := snd_eq_of_keys_nodup d hnd hin hmem
      subst hv
      simpa using hkeep
    · intro hv
      refine List.mem_map.mpr ⟨(x, v), List.mem_filter.mpr ⟨hmem, ?_⟩, rfl⟩
      simpa using hv

/-- Witness for C6's conditional parts at a concrete layers dict. -/
theorem C6_witness :
    (filterLayers [("a", .str "Yes"), ("b", .int 0)]).Sublist
      (List.map Prod.fst [("a", PyVal.str "Yes"), ("b", .int 0)]) ∧
    ("a" ∈ filterLayers [("a", .str "Yes"), ("b", .int 0)] ↔
      strLower (pyStr (.str "Yes")) ∉ excludedLayerValues) :=
  ⟨C6_layer_filtering.2.1 [("a", .str "Yes"), ("b", .int 0)],
   C6_layer_filtering.2.2 [("a", .str "Yes"), ("b", .int 0)] (by decide)
     "a" (.str "Yes") (by decide)⟩

/-- Claim C1: in declarative resolution, a round whose non-empty missing set
equals the previous round's missing set raises the include-resolution error
(a kind distinct from the I/O error); with a handler whose missing set is
invariantly the same non-empty list (a repository no fetch can supply),
resolution fails after exactly two rounds, for every fuel bound of at least
two — a third round is never run. -/
theorem C1_nonprogress {Cfg : Type}
    (get_config : List (String × String) → Cfg × List String)
    (sync : Cfg → List String → Option (List (String × String))) :
    (∀ fuel old repos rounds, old ≠ [] → (get_config repos).2 = old →
      resolveLoop get_config sync (fuel + 1) old repos rounds =
        some (.includeError (rounds + 1))) ∧
    (∀ m, m ≠ [] → (∀ repos, (get_config repos).2 = m) →
      (∀ c, (sync c m).isSome) →
      ∀ fuel, configStaticResolve get_config sync (fuel + 2) =
        some (.includeError 2)) ∧
    (∀ r, (ResolveResult.includeError r : ResolveResult Cfg) ≠ .ioError r) := by
  refine ⟨?_, ?_, by intro r; simp⟩
  · intro fuel old repos rounds hold hmiss
    simp [resolveLoop, hmiss, hold]
  · intro m hm hconst hsync fuel
    have h1 : (get_config []).2 = m := hconst []
    rcases Option.isSome_iff_exists.mp (hsync (get_config []).1) with ⟨repos2, hs⟩
    simp [configStaticResolve, resolveLoop, h1, hm, hs, hconst]

/-- Witness for C1 with a handler that always reports the single missing
repository `"r"`: includeError after two rounds. -/
theorem C1_witness :
    resolveLoop (fun _ => ((0 : Nat), ["r"])) (fun _ _ => some []) 1 ["r"] [] 5 =
      some (.includeError 6) ∧
    configStaticResolve (fun _ => ((0 : Nat), ["r"])) (fun _ _ => some []) 2 =
      some (.includeError 2) :=
  ⟨(C1_nonprogress (fun _ => ((0 : Nat), ["r"])) (fun _ _ => some [])).1 0 ["r"] [] 5
      (by decide) rfl,
   (C1_nonprogress (fun _ => ((0 : Nat), ["r"])) (fun _ _ => some [])).2.1 ["r"]
      (by decide) (fun _ => rfl) (fun _ => rfl) 0⟩

/-- Claim C4: with git operations enabled, `repo_checkout` is a no-op apart
from a warning when the working copy is dirty; a no-op (only the two
read-only probe commands, no checkout) when stripped `HEAD` already equals
the refspec; and otherwise issues the checkout command, whose failure
terminates the run with the subprocess's exit code. -/
theorem C4_repo_checkout (cfg : KasConfig) (repo : Repo) (w : CheckoutWorld)
    (hd : repo.git_operation_disabled = false) :
    ((String.join w.diffRes.stdoutLines).length ≠ 0 →
      repo_checkout cfg repo w =
        ⟨.completed,
         [⟨["/usr/bin/git", "diff", "--shortstat"], repo.path, cfg.environ⟩],
         ["Repo " ++ repo.name ++ " is dirty. no checkout"], [], false⟩) ∧
    ((String.join w.diffRes.stdoutLines).length = 0 → w.revRes.retc = 0 →
      stripEq (String.join w.revRes.stdoutLines) repo.refspec = true →
      repo_checkout cfg repo w =
        ⟨.completed,
         [⟨["/usr/bin/git", "diff", "--shortstat"], repo.path, cfg.environ⟩,
          ⟨["/usr/bin/git", "rev-parse", "--verify", "HEAD"], repo.path, cfg.environ⟩],
         [],
         ["Repo " ++ repo.name ++ " has already checkout out correct "
          ++ "refspec. nothing to do"], false⟩) ∧
    ((String.join w.diffRes.stdoutLines).length = 0 → w.revRes.retc = 0 →
      stripEq (String.join w.revRes.stdoutLines) repo.refspec = false →
      (repo_checkout cfg repo w).cmds =
        [⟨["/usr/bin/git", "diff", "--shortstat"], repo.path, cfg.environ⟩,
         ⟨["/usr/bin/git", "rev-parse", "--verify", "HEAD"], repo.path, cfg.environ⟩,
         ⟨["/usr/bin/git", "checkout", "-q", pyFormatOpt repo.refspec], repo.path, []⟩] ∧
      (w.checkoutRes.retc ≠ 0 →
        (repo_checkout cfg repo w).term = .exited w.checkoutRes.retc) ∧
      (w.checkoutRes.retc = 0 → (repo_checkout cfg repo w).term = .completed)) := by
  refine ⟨?_, ?_, ?_⟩
  · intro hdirty
    simp [repo_checkout, runCmd, hd, hdirty]
  · intro hclean hrev hhead
    simp [repo_checkout, runCmd, hd, hclean, hrev, hhead]
  · intro hclean hrev hhead
    by_cases hc : w.checkoutRes.retc = 0 <;>
      simp [repo_checkout, runCmd, hd, hclean, hrev, hhead, hc]

/-- Witness for C4: a dirty working copy yields only the probe command and
the warning; a clean copy at the right refspec yields no checkout command. -/
theorem C4_witness :
    repo_checkout ⟨"/w", [], none⟩ ⟨"u", "/p", some "abc", [], "r", false⟩
        ⟨⟨0, ["1 file changed\n"], []⟩, ⟨0, [], []⟩, ⟨0, [], []⟩⟩ =
      ⟨.completed, [⟨["/usr/bin/git", "diff", "--shortstat"], "/p", []⟩],
       ["Repo " ++ "r" ++ " is dirty. no checkout"], [], false⟩ ∧
    repo_checkout ⟨"/w", [], none⟩ ⟨"u", "/p", some "abc", [], "r", false⟩
        ⟨⟨0, [], []⟩, ⟨0, ["abc\n"], []⟩, ⟨0, [], []⟩⟩ =
      ⟨.completed,
       [⟨["/usr/bin/git", "diff", "--shortstat"], "/p", []⟩,
        ⟨["/usr/bin/git", "rev-parse", "--verify", "HEAD"], "/p", []⟩],
       [],
       ["Repo " ++ "r" ++ " has already checkout out correct "
        ++ "refspec. nothing to do"], false⟩ :=
  ⟨(C4_repo_checkout ⟨"/w", [], none⟩ ⟨"u", "/p", some "abc", [], "r", false⟩
      ⟨⟨0, ["1 file changed\n"], []⟩, ⟨0, [], []⟩, ⟨0, [], []⟩⟩ rfl).1 (by decide),
   (C4_repo_checkout ⟨"/w", [], none⟩ ⟨"u", "/p", some "abc", [], "r", false⟩
      ⟨⟨0, [], []⟩, ⟨0, ["abc\n"], []⟩, ⟨0, [], []⟩⟩ rfl).2.1
      (by decide) rfl (by decide)⟩

/-- Claim C10: when the working copy is clean and `HEAD` differs from the
refspec, the dirty-probe and `HEAD`-query commands receive `config.environ`
but the final `git checkout` subprocess is spawned with an empty environment
mapping (no `env=` argument, so `run_cmd` substitutes the empty dict). -/
theorem C10_checkout_empty_env (cfg : KasConfig) (repo : Repo) (w : CheckoutWorld)
    (hd : repo.git_operation_disabled = false)
    (hclean : (String.join w.diffRes.stdoutLines).length = 0)
    (hrev : w.revRes.retc = 0)
    (hhead : stripEq (String.join w.revRes.stdoutLines) repo.refspec = false) :
    (repo_checkout cfg repo w).cmds =
      [⟨["/usr/bin/git", "diff", "--shortstat"], repo.path, cfg.environ⟩,
       ⟨["/usr/bin/git", "rev-parse", "--verify", "HEAD"], repo.path, cfg.environ⟩,
       ⟨["/usr/bin/git", "checkout", "-q", pyFormatOpt repo.refspec], repo.path, []⟩] := by
  by_cases hc : w.checkoutRes.retc = 0 <;>
    simp [repo_checkout, runCmd, hd, hclean, hrev, hhead, hc]

/-- Witness for C10: with a non-empty `config.environ`, the recorded trace
shows the two probes carrying the environ and the checkout carrying `[]`. -/
theorem C10_witness :
    (repo_checkout ⟨"/w", [("LANG", "C")], none⟩
        ⟨"u", "/p", some "abc", [], "r", false⟩
        ⟨⟨0, [], []⟩, ⟨0, ["def\n"], []⟩, ⟨0, [], []⟩⟩).cmds =
      [⟨["/usr/bin/git", "diff", "--shortstat"], "/p", [("LANG", "C")]⟩,
       ⟨["/usr/bin/git", "rev-parse", "--verify", "HEAD"], "/p", [("LANG", "C")]⟩,
       ⟨["/usr/bin/git", "checkout", "-q", pyFormatOpt (some "abc")], "/p", []⟩] :=
  C10_checkout_empty_env ⟨"/w", [("LANG", "C")], none⟩
    ⟨"u", "/p", some "abc", [], "r", false⟩
    ⟨⟨0, [], []⟩, ⟨0, ["def\n"], []⟩, ⟨0, [], []⟩⟩ rfl (by decide) rfl (by decide)

/-- Claim C5: with git operations enabled, `repo_fetch` clones when the
local path is absent (creating parent directories, with `--reference` to the
cache-root-joined-with-qualified-name directory exactly when the reference
directory is configured and that directory exists, a plain clone otherwise);
when the path exists and the refspec object is already in the local store it
does nothing further; otherwise it runs a full `git fetch --all` whose
failure only logs a warning and never terminates the run. -/
theorem C5_repo_fetch (cfg : KasConfig) (repo : Repo) (w : FetchWorld)
    (hd : repo.git_operation_disabled = false) :
    (w.pathExists = false →
      (pyTruthy cfg.repo_ref_dir = true → w.gitsrcdirExists = true →
        (repo_fetch cfg repo w).madeDirs = true ∧
        (repo_fetch cfg repo w).cmds =
          [⟨["/usr/bin/git", "clone", "--reference",
             pyJoin (cfg.repo_ref_dir.getD "") repo.qualifiedName,
             repo.url, repo.path], cfg.kas_work_dir, cfg.environ⟩]) ∧
      (¬(pyTruthy cfg.repo_ref_dir = true ∧ w.gitsrcdirExists = true) →
        (repo_fetch cfg repo w).madeDirs = true ∧
        (repo_fetch cfg repo w).cmds =
          [⟨["/usr/bin/git", "clone", "-q", repo.url, repo.path],
            cfg.kas_work_dir, cfg.environ⟩])) ∧
    (w.pathExists = true → ∀ r, repo.refspec = some r →
      (w.catRes.retc = 0 →
        repo_fetch cfg repo w =
          ⟨.completed,
           [⟨["/usr/bin/git", "cat-file", "-t", r], repo.path, cfg.environ⟩],
           [], [], false⟩) ∧
      (w.catRes.retc ≠ 0 →
        (repo_fetch cfg repo w).term = .completed ∧
        (repo_fetch cfg repo w).cmds =
          [⟨["/usr/bin/git", "cat-file", "-t", r], repo.path, cfg.environ⟩,
           ⟨["/usr/bin/git", "fetch", "--all"], repo.path, cfg.environ⟩] ∧
        (w.fetchRes.retc ≠ 0 →
          (repo_fetch cfg repo w).warnings =
            ["Could not update repository " ++ repo.name ++ ": "
              ++ String.join w.fetchRes.stdoutLines]) ∧
        (w.fetchRes.retc = 0 → (repo_fetch cfg repo w).warnings = []))) := by
  constructor
  · intro hpath
    constructor
    · intro href hsrc
      by_cases hcl : w.cloneRes.retc = 0 <;>
        simp [repo_fetch, runCmd, hd, hpath, href, hsrc, hcl]
    · intro hnref
      by_cases hcl : w.cloneRes.retc = 0 <;>
        simp [repo_fetch, runCmd, hd, hpath, hnref, hcl]
  · intro hpath r hr
    refine ⟨?_, ?_⟩
    · intro hcat
      simp [repo_fetch, runCmd, hd, hpath, hr, hcat]
    · intro hcat
      by_cases hf : w.fetchRes.retc = 0 <;>
        simp [repo_fetch, runCmd, hd, hpath, hr, hcat, hf]

/-- Witness for C5: a missing path with a configured, existing reference
directory clones with `--reference`; an existing path whose refspec object
is present issues only the `cat-file` probe. -/
theorem C5_witness :
    (repo_fetch ⟨"/w", [], some "/refs"⟩
        ⟨"https", "/p", some "abc", [], "r", false⟩
        ⟨false, true, ⟨0, [], []⟩, ⟨0, [], []⟩, ⟨0, [], []⟩⟩).cmds =
      [⟨["/usr/bin/git", "clone", "--reference",
         pyJoin ((some "/refs").getD "")
           (Repo.qualifiedName ⟨"https", "/p", some "abc", [], "r", false⟩),
         "https", "/p"], "/w", []⟩] ∧
    repo_fetch ⟨"/w", [], some "/refs"⟩
        ⟨"https", "/p", some "abc", [], "r", false⟩
        ⟨true, true, ⟨0, [], []⟩, ⟨0, [], []⟩, ⟨0, [], []⟩⟩ =
      ⟨.completed, [⟨["/usr/bin/git", "cat-file", "-t", "abc"], "/p", []⟩],
       [], [], false⟩ :=
  ⟨(((C5_repo_fetch ⟨"/w", [], some "/refs"⟩ ⟨"https", "/p", some "abc", [], "r", false⟩
      ⟨false, true, ⟨0, [], []⟩, ⟨0, [], []⟩, ⟨0, [], []⟩⟩ rfl).1 rfl).1
      (by decide) rfl).2,
   ((C5_repo_fetch ⟨"/w", [], some "/refs"⟩ ⟨"https", "/p", some "abc", [], "r", false⟩
      ⟨true, true, ⟨0, [], []⟩, ⟨0, [], []⟩, ⟨0, [], []⟩⟩ rfl).2 rfl
      "abc" rfl).1 rfl⟩

/-- Counterexample to claim C8: in the scriptable strategy with command-line
target `"custom-target"` and no entry points defined, `get_bitbake_target`
returns the command-line target — not the documented default
`"core-image-minimal"` — and `get_proxy_config` raises instead of using any
default. -/
theorem C8_counterexample :
    ConfigPython.get_bitbake_target
        ⟨⟨none, none, none, none, none, none, none⟩, "custom-target"⟩ =
      "custom-target" ∧
    ConfigPython.get_bitbake_target
        ⟨⟨none, none, none, none, none, none, none⟩, "custom-target"⟩ ≠
      "core-image-minimal" ∧
    ConfigPython.get_proxy_config
        ⟨⟨none, none, none, none, none, none, none⟩, "custom-target"⟩ =
      .error "KeyError: get_proxy_config" := by
  refine ⟨rfl, by decide, rfl⟩

/-- Claim C8 as amended: in the declarative strategy the missing scalar keys
fall back to `core-image-minimal` / `qemu` / `poky` (and a present key is
used as-is); in the scriptable strategy, machine, distro and the conf-file
headers follow the defined-then-use-it-else-default policy (`qemu`, `poky`,
empty headers), but the bitbake-target entry point falls back to the
command-line target rather than to `core-image-minimal`, and the
proxy-settings entry point has no fallback at all — its absence is an
error. -/
theorem C8_amended (doc : StaticDoc) (c : ConfigPython) :
    (doc.target = none → ConfigBase.get_bitbake_target doc = "core-image-minimal") ∧
    (∀ t, doc.target = some t → ConfigBase.get_bitbake_target doc = t) ∧
    (doc.machine = none → ConfigBase.get_machine doc = "qemu") ∧
    (∀ m, doc.machine = some m → ConfigBase.get_machine doc = m) ∧
    (doc.distro = none → ConfigBase.get_distro doc = "poky") ∧
    (∀ d, doc.distro = some d → ConfigBase.get_distro doc = d) ∧
    (c.entries.bitbake_target = none → ConfigPython.get_bitbake_target c = c.target) ∧
    (∀ t, c.entries.bitbake_target = some t → ConfigPython.get_bitbake_target c = t) ∧
    (c.entries.machine = none → ConfigPython.get_machine c = "qemu") ∧
    (∀ m, c.entries.machine = some m → ConfigPython.get_machine c = m) ∧
    (c.entries.distro = none → ConfigPython.get_distro c = "poky") ∧
    (∀ d, c.entries.distro = some d → ConfigPython.get_distro c = d) ∧
    (c.entries.bblayers_conf_header = none →
      ConfigPython.get_bblayers_conf_header c = "") ∧
    (c.entries.local_conf_header = none →
      ConfigPython.get_local_conf_header c = "") ∧
    (c.entries.proxy_config = none →
      ConfigPython.get_proxy_config c = .error "KeyError: get_proxy_config") ∧
    (∀ p, c.entries.proxy_config = some p →
      ConfigPython.get_proxy_config c = .ok p) := by
  refine ⟨?_, ?_, ?_, ?_, ?_, ?_, ?_, ?_, ?_, ?_, ?_, ?_, ?_, ?_, ?_, ?_⟩ <;>
    first
      | (intro h
         simp [ConfigBase.get_bitbake_target, ConfigBase.get_machine,
               ConfigBase.get_distro, ConfigPython.get_bitbake_target,
               ConfigPython.get_machine, ConfigPython.get_distro,
               ConfigPython.get_bblayers_conf_header,
               ConfigPython.get_local_conf_header,
               ConfigPython.get_proxy_config, h])
      | (intro x h
         simp [ConfigBase.get_bitbake_target, ConfigBase.get_machine,
               ConfigBase.get_distro, ConfigPython.get_bitbake_target,
               ConfigPython.get_machine, ConfigPython.get_distro,
               ConfigPython.get_bblayers_conf_header,
               ConfigPython.get_local_conf_header,
               ConfigPython.get_proxy_config, h])

/-- Witness for C8's amended statement at an empty declarative document and
an entry-point-free scriptable configuration. -/
theorem C8_witness :
    ConfigBase.get_bitbake_target ⟨none, none, none, none, []⟩ =
      "core-image-minimal" ∧
    ConfigBase.get_machine ⟨none, none, none, none, []⟩ = "qemu" ∧
    ConfigBase.get_distro ⟨none, none, none, none, []⟩ = "poky" ∧
    ConfigPython.get_machine ⟨⟨none, none, none, none, none, none, none⟩, "t"⟩ =
      "qemu" :=
  ⟨(C8_amended ⟨none, none, none, none, []⟩
      ⟨⟨none, none, none, none, none, none, none⟩, "t"⟩).1 rfl,
   (C8_amended ⟨none, none, none, none, []⟩
      ⟨⟨none, none, none, none, none, none, none⟩, "t"⟩).2.2.1 rfl,
   (C8_amended ⟨none, none, none, none, []⟩
      ⟨⟨none, none, none, none, none, none, none⟩, "t"⟩).2.2.2.2.1 rfl,
   (C8_amended ⟨none, none, none, none, []⟩
      ⟨⟨none, none, none, none, none, none, none⟩, "t"⟩).2.2.2.2.2.2.2.2.1 rfl⟩

/-- Counterexample to claim C9: for a repository entry with neither `url` nor
`path`, the path defaults to the git top-level directory of the
configuration file (here `/elsewhere/top`), not to a location under the work
directory (`/work`) keyed by the repository's name. -/
theorem C9_counterexample :
    get_repo_dict ⟨"/work", [], none⟩
        ⟨none, none, none, none, [("r", some ⟨none, none, none, none, []⟩)]⟩
        "/elsewhere/top" =
      [("r", ⟨"/elsewhere/top", "/elsewhere/top", none, [], "r", true⟩)] ∧
    "/elsewhere/top" ≠ pyJoin "/work" "r" := by
  refine ⟨rfl, by decide⟩

/-- Claim C9 as amended: in `get_repo_dict`, a repository without a URL gets
`url := path` and git operations disabled; a repository **with** a URL whose
path is falsy (absent or empty — Python's `path or join(...)` tests
truthiness) defaults its path to the work directory joined with the
(name-keyed) repository name; a repository with neither URL nor path takes
the git top-level directory of the configuration file as its path (and
url); an explicit non-empty path is always kept, and in the no-URL branch
(an `is None` test) even an explicit empty path is kept.  Every entry of the
dictionary is the `mkRepo` image of the corresponding document entry. -/
theorem C9_amended (cfg : KasConfig) (top key : String) (e : Option RepoEntry) :
    ((e.getD ⟨none, none, none, none, []⟩).url = none →
      (mkRepo cfg top key e).url = (mkRepo cfg top key e).path ∧
      (mkRepo cfg top key e).git_operation_disabled = true) ∧
    (∀ u, (e.getD ⟨none, none, none, none, []⟩).url = some u →
      pyTruthy (e.getD ⟨none, none, none, none, []⟩).path = false →
      (mkRepo cfg top key e).path =
        pyJoin cfg.kas_work_dir
          ((e.getD ⟨none, none, none, none, []⟩).name.getD key) ∧
      (mkRepo cfg top key e).git_operation_disabled = false) ∧
    ((e.getD ⟨none, none, none, none, []⟩).url = none →
      (e.getD ⟨none, none, none, none, []⟩).path = none →
      (mkRepo cfg top key e).path = top) ∧
    (∀ p, (e.getD ⟨none, none, none, none, []⟩).path = some p → p ≠ "" →
      (mkRepo cfg top key e).path = p) ∧
    ((e.getD ⟨none, none, none, none, []⟩).url = none →
      ∀ p, (e.getD ⟨none, none, none, none, []⟩).path = some p →
        (mkRepo cfg top key e).path = p) ∧
    (∀ doc : StaticDoc, ∀ q ∈ get_repo_dict cfg doc top,
      ∃ e2, (q.1, e2) ∈ doc.repos ∧ q.2 = mkRepo cfg top q.1 e2) := by
  refine ⟨?_, ?_, ?_, ?_, ?_, ?_⟩
  · intro hu
    cases hp : (e.getD ⟨none, none, none, none, []⟩).path <;>
      simp [mkRepo, hu, hp]
  · intro u hu hp
    simp [mkRepo, hu, hp]
  · intro hu hp
    simp [mkRepo, hu, hp]
  · intro p hp hne
    cases hu : (e.getD ⟨none, none, none, none, []⟩).url <;>
      simp [mkRepo, pyTruthy, hu, hp, hne]
  · intro hu p hp
    simp [mkRepo, hu, hp]
  · intro doc q hq
    rcases List.mem_map.mp hq with ⟨⟨k, e2⟩, hmem, hk⟩
    exact ⟨e2, by rw [← hk]; exact hmem, by rw [← hk]⟩

/-- Witness for C9's amended statement: a URL-only entry lands under the
work directory keyed by name; so does a URL entry with the falsy explicit
path `''`; a bare entry becomes an in-tree repo at the configuration file's
git top-level. -/
theorem C9_witness :
    (mkRepo ⟨"/work", [], none⟩ "/top" "r"
        (some ⟨some "https:x", none, none, none, []⟩)).path =
      pyJoin "/work" "r" ∧
    (mkRepo ⟨"/work", [], none⟩ "/top" "r"
        (some ⟨some "https:x", none, none, none, []⟩)).git_operation_disabled =
      false ∧
    (mkRepo ⟨"/work", [], none⟩ "/top" "r"
        (some ⟨some "https:x", none, none, some "", []⟩)).path =
      pyJoin "/work" "r" ∧
    (mkRepo ⟨"/work", [], none⟩ "/top" "r" (some ⟨none, none, none, none, []⟩)).path =
      "/top" :=
  ⟨((C9_amended ⟨"/work", [], none⟩ "/top" "r"
      (some ⟨some "https:x", none, none, none, []⟩)).2.1 "https:x" rfl rfl).1,
   ((C9_amended ⟨"/work", [], none⟩ "/top" "r"
      (some ⟨some "https:x", none, none, none, []⟩)).2.1 "https:x" rfl rfl).2,
   ((C9_amended ⟨"/work", [], none⟩ "/top" "r"
      (some ⟨some "https:x", none, none, some "", []⟩)).2.1 "https:x" rfl
      (by decide)).1,
   (C9_amended ⟨"/work", [], none⟩ "/top" "r"
      (some ⟨none, none, none, none, []⟩)).2.2.1 rfl rfl⟩

end Kas
